import Mathlib

/-!
Verification development for the patient-insight repository.

The definitions below are shallow embeddings of the Python source:
  * the pydantic data model of src/insight_extractor.py,
  * the two-phase extraction orchestration of src/insight_extractor.py
    (model backends become explicit function parameters returning Except),
  * the highlighter of src/app.py (highlight_text),
  * the secret resolution of src/secrets_manager.py (get_secret,
    _get_from_ssm, _is_ssm_parameter_name) with the process-wide cache and
    the SSM client turned into explicit state passing.
-/

set_option maxHeartbeats 1000000
set_option maxRecDepth 10000

/-- A prescribed treatment (mirrors the pydantic model `Treatment` of
src/insight_extractor.py): medication name, dosage, optional frequency. -/
structure Treatment where
  name : String
  dosage : String
  frequency : Option String
deriving DecidableEq

/-- Structured insights extracted from a hospitalization report (mirrors the
pydantic model `PatientInsights` of src/insight_extractor.py). `age` and
`sexe` are optional; the remaining fields are required by the schema. -/
structure PatientInsights where
  age : Option Int
  sexe : Option String
  antecedents_medicaux : List String
  traitements_habituels : List Treatment
  raison_hospitalisation : String
  traitement_sortie : List Treatment
  fonction_renale : String
  fonction_hepatique : String
deriving DecidableEq

/-- One row of a prescription comparison (mirrors the pydantic model
`ComparisonResult` of src/insight_extractor.py). The `status` field is a
plain string in the source; the closed status set appears only in the
field description used to prompt the backend. -/
structure ComparisonResult where
  medication_name : String
  status : String
  details : Option String
deriving DecidableEq

/-- Result of comparing prescriptions (mirrors `PrescriptionComparison`). -/
structure PrescriptionComparison where
  comparisons : List ComparisonResult
  recommendations : List String
deriving DecidableEq

/-- The closed status set named by the description of
`ComparisonResult.status` in src/insight_extractor.py line 35 (the spec
renders these in English as New, Changed, Unchanged, Stopped). -/
def closedStatusSet : List String := ["Nouveau", "Changé", "Identique", "Arrêté"]

/-- A raw field value as delivered by a backend before pydantic validation:
a string, an explicit null, or a value of any other type. -/
inductive FieldValue where
  | str (s : String)
  | null
  | other
deriving DecidableEq

/-- Pydantic validation of a required `str` field: the field must be present
and be a string; nothing else about its content is checked. -/
def validateRequiredStr (fieldName : String) : Option FieldValue → Except String String
  | some (.str s) => .ok s
  | some .null => .error ("Input should be a valid string: " ++ fieldName)
  | some .other => .error ("Input should be a valid string: " ++ fieldName)
  | none => .error ("Field required: " ++ fieldName)

/-- Pydantic validation of an `Optional[str]` field with default None. -/
def validateOptionalStr (fieldName : String) : Option FieldValue → Except String (Option String)
  | none => .ok none
  | some .null => .ok none
  | some (.str s) => .ok (some s)
  | some .other => .error ("Input should be a valid string: " ++ fieldName)

/-- Construction of a `ComparisonResult` from raw backend-supplied fields,
exactly as pydantic validates the model in src/insight_extractor.py lines
33-36: `medication_name` and `status` are required strings (no membership
check against the closed status set), `details` is an optional string. -/
def ComparisonResult.model_validate (medication_name status details : Option FieldValue) :
    Except String ComparisonResult := do
  let n ← validateRequiredStr "medication_name" medication_name
  let s ← validateRequiredStr "status" status
  let d ← validateOptionalStr "details" details
  .ok ⟨n, s, d⟩

/-!  ## Text annotator (highlight_text, src/app.py lines 33-65)  -/

/-- Case-insensitive character comparison; models `re.IGNORECASE` for the
ASCII range used by the repository. -/
def ciEqChar (a b : Char) : Bool := a.toLower == b.toLower

/-- Does the pattern occur at the head of the text, case-insensitively? -/
def ciLeads : List Char → List Char → Bool
  | [], _ => true
  | _ :: _, [] => false
  | p :: ps, c :: cs => ciEqChar p c && ciLeads ps cs

/-- One pass of `pattern.sub` with a literal, `re.escape`d pattern
(src/app.py lines 62-63): scan the working string left to right, wrap every
non-overlapping case-insensitive occurrence of the pattern between `wrapL`
and `wrapR`, preserving the original casing of the matched slice (the
replacement template uses the whole-match group). `fuel` is at least the
length of the text so the fuel-exhausted branch is never reached. -/
def substAux (pat wrapL wrapR : List Char) : Nat → List Char → List Char
  | _, [] => []
  | 0, rest => rest
  | fuel + 1, c :: rest =>
    if !pat.isEmpty && ciLeads pat (c :: rest) then
      wrapL ++ List.take pat.length (c :: rest) ++ wrapR ++
        substAux pat wrapL wrapR fuel (List.drop (pat.length - 1) rest)
    else
      c :: substAux pat wrapL wrapR fuel rest

/-- Opening markup inserted around a match (src/app.py line 63). -/
def spanOpen : String := "<span style=\"background-color: #ffff00; color: black; font-weight: bold;\">"

/-- Closing markup inserted around a match (src/app.py line 63). -/
def spanClose : String := "</span>"

/-- `pattern.sub(replacement, highlighted)` for one term over the working
string (src/app.py lines 60-63). -/
def applyHighlight (term s : String) : String :=
  String.mk (substAux term.toList spanOpen.toList spanClose.toList s.toList.length s.toList)

/-- `text.replace("\n", "<br>")` (src/app.py line 58). -/
def replaceNewlines : List Char → List Char
  | [] => []
  | c :: rest =>
    if c == '\n' then '<' :: 'b' :: 'r' :: '>' :: replaceNewlines rest
    else c :: replaceNewlines rest

/-- Deduplication keeping first occurrences; models the Python `set` built
in src/app.py lines 39-53 together with one fixed enumeration order of that
set (Python set iteration order is arbitrary; order dependence is treated
where the claims need it). -/
def dedupAux (seen : List String) : List String → List String
  | [] => []
  | s :: rest =>
    if seen.contains s then dedupAux seen rest
    else s :: dedupAux (s :: seen) rest

/-- The filter of src/app.py line 56: keep terms that are truthy (non-empty)
and longer than 2 characters. -/
def termKeep (t : String) : Bool := (!(t == "")) && decide (2 < t.length)

/-- Stable insertion into a length-descending sorted list: the new element
goes in front of the first element whose length does not exceed its own, so
equal-length elements keep their relative order. -/
def insertLenDesc (s : String) : List String → List String
  | [] => [s]
  | t :: rest =>
    if t.length ≤ s.length then s :: t :: rest
    else t :: insertLenDesc s rest

/-- `sorted(terms, key=len, reverse=True)` (src/app.py line 56): a stable
sort by length, descending; ties keep the input (set-iteration) order. -/
def sortLenDesc : List String → List String
  | [] => []
  | s :: rest => insertLenDesc s (sortLenDesc rest)

/-- The core of `highlight_text` (src/app.py lines 56-65), parameterized by
the enumeration order of the collected term set: filter short terms, sort by
length descending (stable), replace newlines, then run one substitution pass
per term over the accumulated working string. -/
def highlightFromTerms (termsEnum : List String) (text : String) : String :=
  let sorted_terms := sortLenDesc (termsEnum.filter termKeep)
  sorted_terms.foldl (fun acc term => applyHighlight term acc)
    (String.mk (replaceNewlines text.toList))

/-- Term collection of src/app.py lines 39-53: treatment names (habitual and
discharge), antecedents, and the hospitalization reason when truthy,
deduplicated. -/
def collectTerms (insights : PatientInsights) : List String :=
  dedupAux []
    ((insights.traitements_habituels.map Treatment.name) ++
     (insights.traitement_sortie.map Treatment.name) ++
     insights.antecedents_medicaux ++
     (if insights.raison_hospitalisation == "" then []
      else [insights.raison_hospitalisation]))

/-- `highlight_text(text, insights)` (src/app.py lines 33-65). A missing
insights record returns the text unchanged. -/
def highlight_text (text : String) : Option PatientInsights → String
  | none => text
  | some insights => highlightFromTerms (collectTerms insights) text

/-!  ## Properties of the stable length-descending sort  -/

theorem mem_insertLenDesc {b s : String} {l : List String} :
    b ∈ insertLenDesc s l ↔ b = s ∨ b ∈ l := by
  induction l with
  | nil => simp [insertLenDesc]
  | cons t rest ih =>
    by_cases h : t.length ≤ s.length
    · simp only [insertLenDesc, if_pos h, List.mem_cons]
    · simp only [insertLenDesc, if_neg h, List.mem_cons, ih]
      tauto

theorem pairwise_insertLenDesc (s : String) (l : List String)
    (h : l.Pairwise (fun a b => b.length ≤ a.length)) :
    (insertLenDesc s l).Pairwise (fun a b => b.length ≤ a.length) := by
  induction l with
  | nil => simp [insertLenDesc]
  | cons t rest ih =>
    rcases List.pairwise_cons.mp h with ⟨ht, hrest⟩
    by_cases hle : t.length ≤ s.length
    · simp only [insertLenDesc, if_pos hle]
      refine List.pairwise_cons.mpr ⟨?_, h⟩
      intro b hb
      rcases List.mem_cons.mp hb with hb | hb
      · exact hb ▸ hle
      · exact le_trans (ht b hb) hle
    · simp only [insertLenDesc, if_neg hle]
      refine List.pairwise_cons.mpr ⟨?_, ih hrest⟩
      intro b hb
      rcases mem_insertLenDesc.mp hb with hb | hb
      · exact hb ▸ le_of_not_le hle
      · exact ht b hb

theorem pairwise_sortLenDesc (l : List String) :
    (sortLenDesc l).Pairwise (fun a b => b.length ≤ a.length) := by
  induction l with
  | nil => simp [sortLenDesc]
  | cons s rest ih => exact pairwise_insertLenDesc s (sortLenDesc rest) ih

theorem filter_insertLenDesc (n : Nat) (s : String) (l : List String) :
    (insertLenDesc s l).filter (fun t => t.length == n) =
      (if s.length == n then [s] else []) ++ l.filter (fun t => t.length == n) := by
  induction l with
  | nil => cases hc : (s.length == n) <;> simp [insertLenDesc, List.filter, hc]
  | cons t rest ih =>
    by_cases h : t.length ≤ s.length
    · simp only [insertLenDesc, if_pos h]
      by_cases hs : s.length = n
      · simp [List.filter, hs]
      · simp only [List.filter]
        have : (s.length == n) = false := by simp [hs]
        simp [this]
    · simp only [insertLenDesc, if_neg h, List.filter]
      by_cases hs : s.length = n
      · have hsn : (s.length == n) = true := by simp [hs]
        have htn : (t.length == n) = false := by
          have : t.length ≠ n := by omega
          simp [this]
        simp [hsn, htn, ih]
      · have hsn : (s.length == n) = false := by simp [hs]
        by_cases htc : t.length = n
        · have htn : (t.length == n) = true := by simp [htc]
          simp [hsn, htn, ih]
        · have htn : (t.length == n) = false := by simp [htc]
          simp [hsn, htn, ih]

theorem filter_sortLenDesc (n : Nat) (l : List String) :
    (sortLenDesc l).filter (fun t => t.length == n) =
      l.filter (fun t => t.length == n) := by
  induction l with
  | nil => simp [sortLenDesc]
  | cons s rest ih =>
    simp only [sortLenDesc, filter_insertLenDesc, ih, List.filter]
    by_cases hs : s.length = n
    · simp [hs]
    · have : (s.length == n) = false := by simp [hs]
      simp [this]

/-!  ## Claim C2: status validation of ComparisonResult  -/

/-- C2 counterexample: a backend response whose status is the string
"Bogus", outside the closed status set, passes `ComparisonResult`
construction without any validation error — the status field is a plain
string in src/insight_extractor.py line 35, so construction silently
accepts it, refuting the claim that such values are rejected. -/
theorem comparison_status_not_validated_cex :
    ComparisonResult.model_validate (some (.str "Apixaban")) (some (.str "Bogus")) none =
      .ok ⟨"Apixaban", "Bogus", none⟩ ∧ "Bogus" ∉ closedStatusSet :=
  ⟨rfl, by decide⟩

/-- C2 amended: construction of a `ComparisonResult` validates only that
`status` is a present string; every string value, including values outside
the closed set (Nouveau, Changé, Identique, Arrêté), is accepted without
error. The closed set appears only in the field description used to prompt
the backend; a missing or non-string status is still a validation error. -/
theorem comparison_status_any_string_accepted :
    ∀ n s : String,
      ComparisonResult.model_validate (some (.str n)) (some (.str s)) none =
        .ok ⟨n, s, none⟩ ∧
      ComparisonResult.model_validate (some (.str n)) none none =
        .error "Field required: status" ∧
      ComparisonResult.model_validate (some (.str n)) (some .null) none =
        .error "Input should be a valid string: status" := by
  intro n s
  exact ⟨rfl, rfl, rfl⟩

/-!  ## Claim C3: re-wrapping inside inserted markup  -/

/-- Insights whose collected term set is exactly the pair ZESTRYL, Zes —
the spec's own example for overlap-safe highlighting. -/
def c3Insights : PatientInsights :=
  { age := none, sexe := none, antecedents_medicaux := ["Zes"],
    traitements_habituels := [⟨"ZESTRYL", "5 mg", none⟩],
    raison_hospitalisation := "", traitement_sortie := [],
    fonction_renale := "", fonction_hepatique := "" }

/-- C3: evaluating `highlight_text` at the spec's own example shows the
shorter term being wrapped again inside the inserted markup. With term set
ZESTRYL and Zes over the text "Zestryl 10mg", the first pass wraps
"Zestryl"; the second pass rescans the whole working string, matches "Zes"
inside the wrapped span content, and inserts a nested span — for either
enumeration order of the term set. The third conjunct records that the
output is not the claimed single wrap. -/
theorem highlight_rewraps_shorter_term_inside_markup :
    highlight_text "Zestryl 10mg" (some c3Insights) =
      spanOpen ++ spanOpen ++ "Zes" ++ spanClose ++ "tryl" ++ spanClose ++ " 10mg" ∧
    highlightFromTerms ["Zes", "ZESTRYL"] "Zestryl 10mg" =
      spanOpen ++ spanOpen ++ "Zes" ++ spanClose ++ "tryl" ++ spanClose ++ " 10mg" ∧
    highlight_text "Zestryl 10mg" (some c3Insights) ≠
      spanOpen ++ "Zestryl" ++ spanClose ++ " 10mg" :=
  ⟨by decide, by decide, by decide⟩

/-!  ## Claim C8: determinism and the tie-break among equal-length terms  -/

/-- C8 counterexample: two enumerations of the same two-element term set
(equal-length terms "abc" and "bcd") fed through the annotator produce
different outputs, so the output is not a function of the term set with a
fixed lexical tie-break: the tie order is the set-enumeration order. -/
theorem annotate_tie_order_dependent_cex :
    List.Perm ["abc", "bcd"] ["bcd", "abc"] ∧
    highlightFromTerms ["abc", "bcd"] "abcd" ≠ highlightFromTerms ["bcd", "abc"] "abcd" :=
  ⟨List.Perm.swap "bcd" "abc" [], by decide⟩

/-- C8 amended: annotation is a deterministic pure function of the source
text and the term enumeration order produced by set iteration; the sort
orders terms by length descending and is stable — equal-length terms keep
their enumeration order (the filtered sublist of any fixed length is
unchanged) — rather than being ordered by a lexical tie-break. -/
theorem annotate_deterministic_given_enumeration :
    ∀ (l : List String) (n : Nat),
      (sortLenDesc l).Pairwise (fun a b => b.length ≤ a.length) ∧
      ((sortLenDesc l).filter (fun t => t.length == n) =
        l.filter (fun t => t.length == n)) ∧
      ∀ text, highlightFromTerms l text =
        (sortLenDesc (l.filter termKeep)).foldl (fun acc term => applyHighlight term acc)
          (String.mk (replaceNewlines text.toList)) := by
  intro l n
  exact ⟨pairwise_sortLenDesc l, filter_sortLenDesc n l, fun _ => rfl⟩

/-!  ## Secret resolution (src/secrets_manager.py)  -/

/-- What the AWS SSM interaction can do when consulted, abstracting the
exception families that the try/except of `_get_from_ssm` distinguishes:
a decrypted value, a missing boto3 library (ImportError), missing
credentials (NoCredentialsError), a store-reported ClientError with its
error code and text, or any other runtime failure (the catch-all branch,
e.g. a transport failure). -/
inductive StoreOutcome where
  | success (value : String)
  | importError
  | noCredentials
  | clientErr (code : String) (msg : String)
  | otherError (msg : String)
deriving DecidableEq

/-- `SecretResolutionError` of src/secrets_manager.py. The Python class is a
single exception type whose distinct raise sites build distinct messages;
each constructor mirrors one raise site, carrying exactly the data that the
corresponding message embeds. -/
inductive SecretResolutionError where
  | missingConfiguration (env_var_name : String)
  | boto3Missing
  | credentialsMissing
  | parameterNotFound (parameter_name : String)
  | accessDenied (parameter_name : String)
  | clientFailure (code : String) (msg : String)
  | unexpectedFailure (msg : String)
deriving DecidableEq

/-- The message text of each raise site of src/secrets_manager.py
(f-strings rendered with string concatenation). -/
def SecretResolutionError.message : SecretResolutionError → String
  | .missingConfiguration env_var_name =>
      "Required environment variable " ++ env_var_name ++ " is not set"
  | .boto3Missing =>
      "boto3 is required to retrieve secrets from AWS SSM. Install it with: pip install boto3"
  | .credentialsMissing =>
      "AWS credentials not found. Ensure your Lambda has proper IAM permissions or configure AWS credentials for local testing."
  | .parameterNotFound parameter_name =>
      "SSM parameter not found: " ++ parameter_name
  | .accessDenied parameter_name =>
      "Access denied to SSM parameter: " ++ parameter_name ++ ". Check IAM permissions (ssm:GetParameter)."
  | .clientFailure code msg =>
      "Failed to retrieve SSM parameter: " ++ code ++ " - " ++ msg
  | .unexpectedFailure msg =>
      "Unexpected error retrieving SSM parameter: " ++ msg

/-- `_is_ssm_parameter_name` (src/secrets_manager.py lines 30-32): a value
starting with the path separator is an indirection reference. -/
def _is_ssm_parameter_name (value : String) : Bool :=
  match value.toList with
  | [] => false
  | c :: _ => c == '/'

/-- The log line emitted just before the SSM call (src/secrets_manager.py
line 54); note it deliberately hides the parameter name. -/
def ssmRetrievingMsg : String := "Retrieving parameter from SSM (name hidden for security)"

/-- `_get_from_ssm` (src/secrets_manager.py lines 35-91): consult the store
and either return the decrypted value or classify the failure at one of the
except branches. The second component is the log emitted during the call
(no line is logged when the boto3 import itself fails, since the log
statement sits after the import). -/
def _get_from_ssm (parameter_name : String) (outcome : StoreOutcome) :
    Except SecretResolutionError String × List String :=
  match outcome with
  | .importError => (.error .boto3Missing, [])
  | .success value => (.ok value, [ssmRetrievingMsg])
  | .noCredentials => (.error .credentialsMissing, [ssmRetrievingMsg])
  | .clientErr code msg =>
      (if code == "ParameterNotFound" then .error (.parameterNotFound parameter_name)
       else if code == "AccessDeniedException" then .error (.accessDenied parameter_name)
       else .error (.clientFailure code msg), [ssmRetrievingMsg])
  | .otherError msg => (.error (.unexpectedFailure msg), [ssmRetrievingMsg])

/-- The process-wide mutable state of src/secrets_manager.py made explicit:
the `_secrets_cache` dict plus a counter of SSM invocations (used to state
the invocation-count properties). -/
structure ResolveState where
  cache : List (String × String)
  ssmCalls : Nat
deriving DecidableEq

/-- `get_secret` (src/secrets_manager.py lines 94-157). The process
environment and the SSM store become explicit function parameters; the
result is the returned value or raised error, the updated state, and the
log lines emitted during this call. -/
def get_secret (env : String → Option String) (ssm : String → StoreOutcome)
    (env_var_name : String) (required : Bool) (st : ResolveState) :
    Except SecretResolutionError (Option String) × ResolveState × List String :=
  match List.lookup env_var_name st.cache with
  | some cached =>
      (.ok (some cached), st, ["Using cached secret for " ++ env_var_name])
  | none =>
    match env env_var_name with
    | none =>
        if required then
          (.error (.missingConfiguration env_var_name), st, [])
        else
          (.ok none, st, ["Optional secret " ++ env_var_name ++ " not found"])
    | some env_value =>
      if _is_ssm_parameter_name env_value then
        let pre := ["Resolving " ++ env_var_name ++ " from SSM Parameter Store"]
        let r := _get_from_ssm env_value (ssm env_value)
        let st' : ResolveState := { st with ssmCalls := st.ssmCalls + 1 }
        match r.1 with
        | .ok secret_value =>
            (.ok (some secret_value),
             { st' with cache := (env_var_name, secret_value) :: st'.cache },
             pre ++ r.2 ++ ["Successfully resolved " ++ env_var_name ++ " from SSM"])
        | .error e =>
            if required then
              (.error e, st', pre ++ r.2)
            else
              (.ok none, st',
               pre ++ r.2 ++
                 ["Failed to resolve optional secret " ++ env_var_name ++ ": " ++ e.message])
      else
        (.ok (some env_value),
         { st with cache := (env_var_name, env_value) :: st.cache },
         ["Using raw value for " ++ env_var_name ++ " (local development mode)"])

/-- A sequence of `get_secret` calls for one configuration name, one call
per entry of `reqs` (each entry is that call's `required` flag), threading
the process-wide state; returns the per-call results and the final state. -/
def runCalls (env : String → Option String) (ssm : String → StoreOutcome)
    (env_var_name : String) :
    List Bool → ResolveState →
      List (Except SecretResolutionError (Option String)) × ResolveState
  | [], st => ([], st)
  | req :: rest, st =>
    let r := get_secret env ssm env_var_name req st
    let rec_ := runCalls env ssm env_var_name rest r.2.1
    (r.1 :: rec_.1, rec_.2)

/-- Modelled from the spec: the five failure classes of the spec's error
taxonomy for remote store resolution (section 7). Used only to compare the
source's classification branches against the spec's classes. -/
inductive SpecFailureClass where
  | storeUnavailable
  | credentialsMissing
  | referenceNotFound
  | accessDenied
  | unknownStoreError
deriving DecidableEq

/-- Modelled from the spec: the refinement map sending each raise site of
`_get_from_ssm` to the spec class covering it — StoreUnavailable covers the
absent client library and transport (catch-all) failures, CredentialsMissing
the missing-credentials branch, ReferenceNotFound the ParameterNotFound
branch, AccessDenied the AccessDeniedException branch, UnknownStoreError any
other store-reported ClientError. The missing-configuration error is not a
store failure and has no class. -/
def specClassify : SecretResolutionError → Option SpecFailureClass
  | .missingConfiguration _ => none
  | .boto3Missing => some .storeUnavailable
  | .unexpectedFailure _ => some .storeUnavailable
  | .credentialsMissing => some .credentialsMissing
  | .parameterNotFound _ => some .referenceNotFound
  | .accessDenied _ => some .accessDenied
  | .clientFailure _ _ => some .unknownStoreError

/-!  ## Extraction orchestration (src/insight_extractor.py lines 67-119)

The model backend and the local output parsing become explicit function
parameters returning `Except`: `invokeStructured` is the structured-output
chain of the try block (any raised exception becomes an error value, since
the except clause catches every exception class), `invokeText` is the raw
model invocation of the fallback chain, and `parse` is the local parsing of
the returned text against the pydantic schema. The French prompt wording is
folded into the invocation functions, which receive the source text; the
wording carries no control flow and every claim quantifies over backend
behavior. -/

/-- Reasons an invocation phase can fail, covering the exception families
the source's except clauses mention: unsupported structured output,
network/transport errors, a malformed backend response, and failure of the
local parsing of the fallback text. -/
inductive BackendError where
  | unsupported
  | network (msg : String)
  | malformedResponse (msg : String)
  | outputParsingFailure (msg : String)
deriving DecidableEq

/-- `extract_from_text` (src/insight_extractor.py lines 67-90): attempt the
structured-output chain; on any raised error fall back to the plain-text
chain followed by local parsing; an error of the fallback chain propagates
to the caller with no further fallback. -/
def extract_from_text
    (invokeStructured : String → Except BackendError PatientInsights)
    (invokeText : String → Except BackendError String)
    (parse : String → Except BackendError PatientInsights)
    (text : String) : Except BackendError PatientInsights :=
  match invokeStructured text with
  | .ok insights => .ok insights
  | .error _ =>
    match invokeText text with
    | .ok raw => parse raw
    | .error e => .error e

/-- The rendering of one treatment line in the comparison prompt
(src/insight_extractor.py lines 93-94): Python string interpolation turns
an absent frequency (None) into the literal text "None". -/
def treatmentLine (t : Treatment) : String :=
  "- " ++ t.name ++ " " ++ t.dosage ++ " " ++
    (match t.frequency with
     | some f => f
     | none => "None")

/-- Python `"\n".join` over a list of rendered lines. -/
def joinLines : List String → String
  | [] => ""
  | [s] => s
  | s :: rest => s ++ "\n" ++ joinLines rest

/-- The treatment-list block of the comparison prompt
(src/insight_extractor.py lines 93-94). -/
def renderTreatments (ts : List Treatment) : String :=
  joinLines (ts.map treatmentLine)

/-- The user message of the comparison prompt (src/insight_extractor.py
lines 100 and 112), assembled from the two rendered treatment blocks. -/
def compareUserPrompt (existing_treatments new_prescription : String) : String :=
  "Traitements habituels :\n" ++ existing_treatments ++
    "\n\nNouvelle prescription :\n" ++ new_prescription ++
    "\n\nAnalyse les différences (nouveaux, arrêtés, modifiés) et donne des recommandations si nécessaire."

/-- `compare_prescription` (src/insight_extractor.py lines 92-119): render
both treatment lists into the prompt, then run the same two-phase protocol
as extraction. -/
def compare_prescription
    (invokeStructured : String → Except BackendError PrescriptionComparison)
    (invokeText : String → Except BackendError String)
    (parse : String → Except BackendError PrescriptionComparison)
    (insights : PatientInsights) (new_prescription : List Treatment) :
    Except BackendError PrescriptionComparison :=
  let existing_treatments_str := renderTreatments insights.traitements_habituels
  let new_prescription_str := renderTreatments new_prescription
  match invokeStructured (compareUserPrompt existing_treatments_str new_prescription_str) with
  | .ok comparison => .ok comparison
  | .error _ =>
    match invokeText (compareUserPrompt existing_treatments_str new_prescription_str) with
    | .ok raw => parse raw
    | .error e => .error e

/-!  ## Claim C1: two-phase fallback of extract  -/

/-- C1: whenever the structured-output invocation raises, the orchestrator
falls back to the plain-text invocation plus local parsing: if that
fallback succeeds the parsed `PatientInsights` (validated by the schema
parsing by construction) is returned; the result is an error only when the
fallback phase also fails — either the text invocation or the parsing of
its output — and that error propagates with no further fallback. -/
theorem extract_two_phase_fallback
    (invokeStructured : String → Except BackendError PatientInsights)
    (invokeText : String → Except BackendError String)
    (parse : String → Except BackendError PatientInsights)
    (text : String) (e1 : BackendError)
    (hfail : invokeStructured text = .error e1) :
    (∀ raw insights, invokeText text = .ok raw → parse raw = .ok insights →
      extract_from_text invokeStructured invokeText parse text = .ok insights) ∧
    (∀ e, extract_from_text invokeStructured invokeText parse text = .error e →
      invokeText text = .error e ∨
        ∃ raw, invokeText text = .ok raw ∧ parse raw = .error e) ∧
    (∀ e2, invokeText text = .error e2 →
      extract_from_text invokeStructured invokeText parse text = .error e2) := by
  refine ⟨?_, ?_, ?_⟩
  · intro raw insights h1 h2
    simp [extract_from_text, hfail, h1, h2]
  · intro e he
    simp only [extract_from_text, hfail] at he
    cases h1 : invokeText text with
    | ok raw =>
        right
        refine ⟨raw, rfl, ?_⟩
        rwa [h1] at he
    | error e2 =>
        left
        rw [h1] at he
        simp only [Except.error.injEq] at he
        rw [← he]
  · intro e2 h2
    simp [extract_from_text, hfail, h2]

/-- A concrete insights record used by witnesses. -/
def sampleInsights : PatientInsights :=
  { age := some 81, sexe := some "F", antecedents_medicaux := ["HTA"],
    traitements_habituels := [⟨"ZESTRYL", "5 mg", some "1 le matin"⟩],
    raison_hospitalisation := "Lymphome", traitement_sortie := [],
    fonction_renale := "DFG 72", fonction_hepatique := "BHC Normal" }

/-- A backend whose structured-output capability always raises. -/
def wInvokeStructured : String → Except BackendError PatientInsights :=
  fun _ => .error .unsupported

/-- A backend text invocation that returns fixed raw text. -/
def wInvokeText : String → Except BackendError String :=
  fun _ => .ok "RAW OUTPUT"

/-- A local parse that accepts the fixed raw text. -/
def wParse : String → Except BackendError PatientInsights :=
  fun _ => .ok sampleInsights

/-- Witness for C1 at concrete inputs: the structured phase raises, the
fallback succeeds, and extraction returns the parsed insights. -/
theorem extract_two_phase_fallback_witness :
    extract_from_text wInvokeStructured wInvokeText wParse "report" = .ok sampleInsights :=
  (extract_two_phase_fallback wInvokeStructured wInvokeText wParse "report"
    .unsupported rfl).1 "RAW OUTPUT" sampleInsights rfl rfl

/-!  ## Claim C10: rendering of an absent frequency  -/

theorem joinLines_contains {a : String} {xs : List String} (h : a ∈ xs) :
    ∃ p q : List Char, (joinLines xs).toList = p ++ a.toList ++ q := by
  induction xs with
  | nil => cases h
  | cons x rest ih =>
    rcases List.mem_cons.mp h with rfl | hr
    · cases rest with
      | nil => exact ⟨[], [], by simp [joinLines]⟩
      | cons y ys =>
          refine ⟨[], '\n' :: (joinLines (y :: ys)).toList, ?_⟩
          show (a ++ "\n" ++ joinLines (y :: ys)).toList = [] ++ a.toList ++ _
          simp
    · cases rest with
      | nil => cases hr
      | cons y ys =>
          rcases ih hr with ⟨p, q, hpq⟩
          refine ⟨x.toList ++ '\n' :: p, q, ?_⟩
          show (x ++ "\n" ++ joinLines (y :: ys)).toList = _
          have : (x ++ "\n" ++ joinLines (y :: ys)).toList =
              x.toList ++ '\n' :: (joinLines (y :: ys)).toList := by simp
          rw [this, hpq]
          simp

/-- C10: a treatment whose optional frequency is absent is rendered in the
comparison prompt with the literal text "None" in the frequency position;
its line occurs verbatim inside the rendered treatment block that
`compare_prescription` embeds into the prompt. -/
theorem compare_renders_absent_frequency_as_None
    (t : Treatment) (l : List Treatment) (h1 : t ∈ l) (h2 : t.frequency = none) :
    treatmentLine t = "- " ++ t.name ++ " " ++ t.dosage ++ " None" ∧
    ∃ p q : List Char,
      (renderTreatments l).toList =
        p ++ ("- " ++ t.name ++ " " ++ t.dosage ++ " None").toList ++ q := by
  have hline : treatmentLine t = "- " ++ t.name ++ " " ++ t.dosage ++ " None" := by
    simp only [treatmentLine, h2]
    rw [String.append_assoc]
    rfl
  refine ⟨hline, ?_⟩
  have hmem : treatmentLine t ∈ l.map treatmentLine := List.mem_map_of_mem _ h1
  rcases joinLines_contains hmem with ⟨p, q, hpq⟩
  exact ⟨p, q, by rwa [hline] at hpq⟩

/-- Witness for C10 at a concrete treatment with absent frequency. -/
theorem compare_renders_absent_frequency_as_None_witness :
    treatmentLine ⟨"ASPIRIN", "100 mg", none⟩ = "- ASPIRIN 100 mg None" ∧
    ∃ p q : List Char,
      (renderTreatments [⟨"ZESTRYL", "5 mg", some "1 le matin"⟩, ⟨"ASPIRIN", "100 mg", none⟩]).toList =
        p ++ ("- " ++ "ASPIRIN" ++ " " ++ "100 mg" ++ " None").toList ++ q := by
  have h := compare_renders_absent_frequency_as_None ⟨"ASPIRIN", "100 mg", none⟩
    [⟨"ZESTRYL", "5 mg", some "1 le matin"⟩, ⟨"ASPIRIN", "100 mg", none⟩]
    (by simp) rfl
  exact ⟨by decide, h.2⟩

/-!  ## Helper lemmas about get_secret  -/

theorem get_secret_cached (env : String → Option String) (ssm : String → StoreOutcome)
    (name : String) (req : Bool) (st : ResolveState) (w : String)
    (h : List.lookup name st.cache = some w) :
    get_secret env ssm name req st =
      (.ok (some w), st, ["Using cached secret for " ++ name]) := by
  simp [get_secret, h]

theorem get_secret_literal (env : String → Option String) (ssm : String → StoreOutcome)
    (name : String) (req : Bool) (st : ResolveState) (v : String)
    (hnc : List.lookup name st.cache = none)
    (henv : env name = some v)
    (hlit : _is_ssm_parameter_name v = false) :
    get_secret env ssm name req st =
      (.ok (some v), { st with cache := (name, v) :: st.cache },
       ["Using raw value for " ++ name ++ " (local development mode)"]) := by
  simp [get_secret, hnc, henv, hlit]

theorem get_secret_indirection_success (env : String → Option String)
    (ssm : String → StoreOutcome) (name : String) (req : Bool) (st : ResolveState)
    (v w : String)
    (hnc : List.lookup name st.cache = none)
    (henv : env name = some v)
    (hind : _is_ssm_parameter_name v = true)
    (hs : ssm v = .success w) :
    get_secret env ssm name req st =
      (.ok (some w),
       { cache := (name, w) :: st.cache, ssmCalls := st.ssmCalls + 1 },
       ["Resolving " ++ name ++ " from SSM Parameter Store", ssmRetrievingMsg,
        "Successfully resolved " ++ name ++ " from SSM"]) := by
  simp [get_secret, hnc, henv, hind, hs, _get_from_ssm]

theorem get_secret_indirection_failure (env : String → Option String)
    (ssm : String → StoreOutcome) (name : String) (req : Bool) (st : ResolveState)
    (v : String) (e : SecretResolutionError)
    (hnc : List.lookup name st.cache = none)
    (henv : env name = some v)
    (hind : _is_ssm_parameter_name v = true)
    (herr : (_get_from_ssm v (ssm v)).1 = .error e) :
    (get_secret env ssm name req st).1 = (if req then .error e else .ok none) ∧
    (get_secret env ssm name req st).2.1 = { st with ssmCalls := st.ssmCalls + 1 } := by
  cases req <;> simp [get_secret, hnc, henv, hind, herr]

theorem _get_from_ssm_failure (v : String) (o : StoreOutcome)
    (hf : ∀ w, o ≠ .success w) :
    ∃ e, (_get_from_ssm v o).1 = .error e ∧ ∃ k, specClassify e = some k := by
  cases o with
  | success w => exact absurd rfl (hf w)
  | importError => exact ⟨.boto3Missing, rfl, .storeUnavailable, rfl⟩
  | noCredentials => exact ⟨.credentialsMissing, rfl, .credentialsMissing, rfl⟩
  | otherError m => exact ⟨.unexpectedFailure m, rfl, .storeUnavailable, rfl⟩
  | clientErr code msg =>
      by_cases h1 : code = "ParameterNotFound"
      · exact ⟨.parameterNotFound v, by simp [_get_from_ssm, h1], .referenceNotFound, rfl⟩
      · by_cases h2 : code = "AccessDeniedException"
        · exact ⟨.accessDenied v, by simp [_get_from_ssm, h1, h2], .accessDenied, rfl⟩
        · exact ⟨.clientFailure code msg, by simp [_get_from_ssm, h1, h2], .unknownStoreError, rfl⟩

theorem runCalls_cached (env : String → Option String) (ssm : String → StoreOutcome)
    (name : String) (reqs : List Bool) (st : ResolveState) (w : String)
    (h : List.lookup name st.cache = some w) :
    runCalls env ssm name reqs st = (reqs.map fun _ => .ok (some w), st) := by
  induction reqs with
  | nil => simp [runCalls]
  | cons r rest ih =>
      simp [runCalls, get_secret_cached env ssm name r st w h, ih]

/-!  ## Claim C4: caching behavior of resolve  -/

/-- Environment used by counterexamples: one configured name holding an
indirection reference. -/
def c4env : String → Option String := fun n => if n == "K" then some "/p" else none

/-- A store whose lookups always fail with a transport error. -/
def c4ssm : String → StoreOutcome := fun _ => .otherError "connection refused"

/-- C4 counterexample: for a name holding an indirection reference whose
remote lookup fails with `required=false`, the failure is not cached, so a
second `resolve` call invokes the store again — two calls, two store
invocations, refuting "invoked at most once across repeated calls". -/
theorem resolve_store_reinvoked_after_failure_cex :
    _is_ssm_parameter_name "/p" = true ∧
    ((get_secret c4env c4ssm "K" false { cache := [], ssmCalls := 0 }).2.1).ssmCalls = 1 ∧
    ((get_secret c4env c4ssm "K" false
      (get_secret c4env c4ssm "K" false { cache := [], ssmCalls := 0 }).2.1).2.1).ssmCalls = 2 :=
  ⟨rfl, rfl, rfl⟩

/-- C4 amended: for a literal value, every call in any sequence of resolve
calls returns that value and the store is never invoked; for an indirection
reference whose lookup succeeds, every call returns the decrypted value and
the store is invoked exactly once across the sequence (the first call
caches, later calls hit the cache). When a lookup fails nothing is cached
and a later call re-invokes the store. -/
theorem resolve_cache_discipline (env : String → Option String) (ssm : String → StoreOutcome)
    (name : String) (st : ResolveState)
    (hnc : List.lookup name st.cache = none) :
    (∀ v, env name = some v → _is_ssm_parameter_name v = false →
      ∀ reqs, (runCalls env ssm name reqs st).2.ssmCalls = st.ssmCalls ∧
        ∀ r ∈ (runCalls env ssm name reqs st).1, r = .ok (some v)) ∧
    (∀ v w, env name = some v → _is_ssm_parameter_name v = true → ssm v = .success w →
      ∀ reqs, (runCalls env ssm name reqs st).2.ssmCalls =
          st.ssmCalls + (if reqs.isEmpty then 0 else 1) ∧
        ∀ r ∈ (runCalls env ssm name reqs st).1, r = .ok (some w)) := by
  constructor
  · intro v henv hlit reqs
    cases reqs with
    | nil => simp [runCalls]
    | cons r rest =>
        have h1 := get_secret_literal env ssm name r st v hnc henv hlit
        have hlook : List.lookup name ((name, v) :: st.cache) = some v := by
          simp [List.lookup]
        have h2 := runCalls_cached env ssm name rest
          { st with cache := (name, v) :: st.cache } v hlook
        constructor
        · simp [runCalls, h1, h2]
        · simp only [runCalls, h1, h2]
          intro x hx
          rcases List.mem_cons.mp hx with rfl | hx
          · rfl
          · rcases List.mem_map.mp hx with ⟨_, _, rfl⟩
            rfl
  · intro v w henv hind hs reqs
    cases reqs with
    | nil => simp [runCalls]
    | cons r rest =>
        have h1 := get_secret_indirection_success env ssm name r st v w hnc henv hind hs
        have hlook : List.lookup name ((name, w) :: st.cache) = some w := by
          simp [List.lookup]
        have h2 := runCalls_cached env ssm name rest
          ⟨(name, w) :: st.cache, st.ssmCalls + 1⟩ w hlook
        constructor
        · simp [runCalls, h1, h2]
        · simp only [runCalls, h1, h2]
          intro x hx
          rcases List.mem_cons.mp hx with rfl | hx
          · rfl
          · rcases List.mem_map.mp hx with ⟨_, _, rfl⟩
            rfl

/-- Witness for C4 amended: a literal name resolved three times returns the
literal each time with zero store calls; an indirection name resolved twice
under a successful store returns the decrypted value both times with one
store call. -/
theorem resolve_cache_discipline_witness :
    ((runCalls (fun _ => some "sk-local") c4ssm "K" [true, false, true]
        { cache := [], ssmCalls := 0 }).2.ssmCalls = 0 ∧
      ∀ r ∈ (runCalls (fun _ => some "sk-local") c4ssm "K" [true, false, true]
        { cache := [], ssmCalls := 0 }).1, r = .ok (some "sk-local")) ∧
    ((runCalls (fun _ => some "/p") (fun _ => .success "decrypted") "K" [true, true]
        { cache := [], ssmCalls := 0 }).2.ssmCalls =
          ({ cache := [], ssmCalls := 0 } : ResolveState).ssmCalls +
            (if ([true, true] : List Bool).isEmpty then 0 else 1) ∧
      ∀ r ∈ (runCalls (fun _ => some "/p") (fun _ => .success "decrypted") "K" [true, true]
        { cache := [], ssmCalls := 0 }).1, r = .ok (some "decrypted")) :=
  ⟨(resolve_cache_discipline (fun _ => some "sk-local") c4ssm "K"
      { cache := [], ssmCalls := 0 } rfl).1 "sk-local" rfl rfl [true, false, true],
   (resolve_cache_discipline (fun _ => some "/p") (fun _ => .success "decrypted") "K"
      { cache := [], ssmCalls := 0 } rfl).2 "/p" "decrypted" rfl rfl rfl [true, true]⟩

/-!  ## Claim C5: classification of remote lookup failures  -/

/-- C5: every failing remote lookup produces a `SecretResolutionError` whose
raise site is covered by one of the spec's five failure classes
(StoreUnavailable, CredentialsMissing, ReferenceNotFound, AccessDenied,
UnknownStoreError); with `required=false` the failure degrades to an absent
value, and with `required=true` the same typed failure propagates. -/
theorem store_failure_classification (env : String → Option String)
    (ssm : String → StoreOutcome) (name v : String) (st : ResolveState)
    (hnc : List.lookup name st.cache = none)
    (henv : env name = some v)
    (hind : _is_ssm_parameter_name v = true)
    (hfail : ∀ w, ssm v ≠ .success w) :
    ∃ e : SecretResolutionError,
      (_get_from_ssm v (ssm v)).1 = .error e ∧
      (∃ k : SpecFailureClass, specClassify e = some k) ∧
      (get_secret env ssm name false st).1 = .ok none ∧
      (get_secret env ssm name true st).1 = .error e := by
  rcases _get_from_ssm_failure v (ssm v) hfail with ⟨e, herr, hk⟩
  refine ⟨e, herr, hk, ?_, ?_⟩
  · simpa using (get_secret_indirection_failure env ssm name false st v e hnc henv hind herr).1
  · simpa using (get_secret_indirection_failure env ssm name true st v e hnc henv hind herr).1

/-- Environment for the C5 witness: every name maps to an indirection. -/
def c5env : String → Option String := fun _ => some "/p"

/-- A store that always reports missing credentials. -/
def c5ssm : String → StoreOutcome := fun _ => .noCredentials

/-- Witness for C5 at a concrete failing store. -/
theorem store_failure_classification_witness :
    ∃ e : SecretResolutionError,
      (_get_from_ssm "/p" (c5ssm "/p")).1 = .error e ∧
      (∃ k : SpecFailureClass, specClassify e = some k) ∧
      (get_secret c5env c5ssm "MISTRAL_API_KEY" false { cache := [], ssmCalls := 0 }).1 =
        .ok none ∧
      (get_secret c5env c5ssm "MISTRAL_API_KEY" true { cache := [], ssmCalls := 0 }).1 =
        .error e :=
  store_failure_classification c5env c5ssm "MISTRAL_API_KEY" "/p" ⟨[], 0⟩ rfl rfl rfl
    (fun _ h => StoreOutcome.noConfusion h)

/-!  ## Claim C6: unset configuration names  -/

/-- C6: a name that is neither cached nor set in the environment raises the
missing-configuration failure when `required=true` and returns absence when
`required=false` (logging only the name); the cache is untouched. -/
theorem resolve_unset_name (env : String → Option String) (ssm : String → StoreOutcome)
    (name : String) (st : ResolveState)
    (hnc : List.lookup name st.cache = none)
    (henv : env name = none) :
    get_secret env ssm name true st = (.error (.missingConfiguration name), st, []) ∧
    get_secret env ssm name false st =
      (.ok none, st, ["Optional secret " ++ name ++ " not found"]) := by
  constructor <;> simp [get_secret, hnc, henv]

/-- Witness for C6 with an empty environment and empty cache. -/
theorem resolve_unset_name_witness :
    get_secret (fun _ => none) c4ssm "OPENAI_API_KEY" true { cache := [], ssmCalls := 0 } =
      (.error (.missingConfiguration "OPENAI_API_KEY"), { cache := [], ssmCalls := 0 }, []) ∧
    get_secret (fun _ => none) c4ssm "OPENAI_API_KEY" false { cache := [], ssmCalls := 0 } =
      (.ok none, { cache := [], ssmCalls := 0 },
       ["Optional secret " ++ "OPENAI_API_KEY" ++ " not found"]) :=
  resolve_unset_name (fun _ => none) c4ssm "OPENAI_API_KEY" { cache := [], ssmCalls := 0 } rfl rfl

/-!  ## Claim C9: failure paths leave the cache unchanged  -/

/-- C9: whenever a resolve call does not return a successfully resolved
value — the name is unset, or the remote lookup fails (propagating when
required, degrading to absence when optional) — the cache is unchanged and
no entry is inserted, so a subsequent call re-reads the configuration and
re-attempts the remote lookup (one further store invocation per call). -/
theorem failed_resolution_leaves_cache_unchanged (env : String → Option String)
    (ssm : String → StoreOutcome) (name : String) (req : Bool) (st : ResolveState)
    (hnc : List.lookup name st.cache = none)
    (hfail : env name = none ∨
      ∃ v, env name = some v ∧ _is_ssm_parameter_name v = true ∧ ∀ w, ssm v ≠ .success w) :
    (get_secret env ssm name req st).2.1.cache = st.cache ∧
    (∀ v, (get_secret env ssm name req st).1 ≠ .ok (some v)) ∧
    (∀ v, env name = some v →
      (get_secret env ssm name req st).2.1.ssmCalls = st.ssmCalls + 1 ∧
      (get_secret env ssm name req (get_secret env ssm name req st).2.1).2.1.ssmCalls =
        st.ssmCalls + 2) := by
  rcases hfail with henv | ⟨v, henv, hind, hf⟩
  · refine ⟨?_, ?_, ?_⟩
    · cases req <;> simp [get_secret, hnc, henv]
    · intro u
      cases req <;> simp [get_secret, hnc, henv]
    · intro u hu
      rw [henv] at hu
      exact Option.noConfusion hu
  · rcases _get_from_ssm_failure v (ssm v) hf with ⟨e, herr, _⟩
    have h1 := get_secret_indirection_failure env ssm name req st v e hnc henv hind herr
    refine ⟨?_, ?_, ?_⟩
    · rw [h1.2]
    · intro u h
      rw [h1.1] at h
      cases req <;> simp at h
    · intro u hu
      have hnc2 : List.lookup name
          ({ st with ssmCalls := st.ssmCalls + 1 } : ResolveState).cache = none := hnc
      have h2 := get_secret_indirection_failure env ssm name req
        { st with ssmCalls := st.ssmCalls + 1 } v e hnc2 henv hind herr
      refine ⟨by rw [h1.2], ?_⟩
      rw [h1.2, h2.2]

/-- Witness for C9: concrete indirection name with a failing store; the
cache stays empty and each of two calls invokes the store once. -/
theorem failed_resolution_leaves_cache_unchanged_witness :
    (get_secret c4env c4ssm "K" true { cache := [], ssmCalls := 0 }).2.1.cache =
      ({ cache := [], ssmCalls := 0 } : ResolveState).cache ∧
    (∀ v, (get_secret c4env c4ssm "K" true { cache := [], ssmCalls := 0 }).1 ≠
      .ok (some v)) ∧
    (∀ v, c4env "K" = some v →
      (get_secret c4env c4ssm "K" true { cache := [], ssmCalls := 0 }).2.1.ssmCalls =
        ({ cache := [], ssmCalls := 0 } : ResolveState).ssmCalls + 1 ∧
      (get_secret c4env c4ssm "K" true
        (get_secret c4env c4ssm "K" true { cache := [], ssmCalls := 0 }).2.1).2.1.ssmCalls =
        ({ cache := [], ssmCalls := 0 } : ResolveState).ssmCalls + 2) :=
  failed_resolution_leaves_cache_unchanged c4env c4ssm "K" true { cache := [], ssmCalls := 0 }
    rfl (Or.inr ⟨"/p", rfl, rfl, fun _ h => StoreOutcome.noConfusion h⟩)

/-!  ## Claim C7: diagnostics and the resolved secret value  -/

/-- The raised error of a resolve result, if any. -/
def errOf (r : Except SecretResolutionError (Option String)) : Option SecretResolutionError :=
  match r with
  | .error e => some e
  | .ok _ => none

/-- Two environment values agree in shape: both absent, both literal values
(possibly different secrets), or the identical indirection reference. -/
def envValueAgree (a b : Option String) : Prop :=
  (a = none ∧ b = none) ∨
  (∃ v w, a = some v ∧ b = some w ∧
    _is_ssm_parameter_name v = false ∧ _is_ssm_parameter_name w = false) ∨
  (∃ v, a = some v ∧ b = some v)

/-- Two store outcomes agree in shape: both successes (possibly different
decrypted secrets) or the identical failure. -/
def outcomeAgree (a b : StoreOutcome) : Prop :=
  (∃ u1 u2, a = .success u1 ∧ b = .success u2) ∨ a = b

theorem _get_from_ssm_ok (v : String) (o : StoreOutcome) (u : String)
    (h : (_get_from_ssm v o).1 = .ok u) : o = .success u := by
  cases o with
  | success w =>
      simp [_get_from_ssm] at h
      rw [h]
  | importError => simp [_get_from_ssm] at h
  | noCredentials => simp [_get_from_ssm] at h
  | otherError m => simp [_get_from_ssm] at h
  | clientErr c m =>
      simp only [_get_from_ssm] at h
      split at h
      · simp at h
      · split at h <;> simp at h

/-- C7 amended: diagnostics are independent of every secret value. Two
resolve calls for the same configuration name whose environments, stores
and caches agree in shape but may hold arbitrarily different secret values
(different literal values, different decrypted store values, different
cached values) emit identical log lines and identical raised errors — so no
log or error ever contains the resolved value. Failure messages do,
however, depend on the indirection reference (see the counterexample), so
agreement of references is required. -/
theorem resolve_diagnostics_value_independent
    (env1 env2 : String → Option String) (ssm1 ssm2 : String → StoreOutcome)
    (name : String) (req : Bool) (st1 st2 : ResolveState)
    (henv : envValueAgree (env1 name) (env2 name))
    (hssm : ∀ p, outcomeAgree (ssm1 p) (ssm2 p))
    (hcache : (List.lookup name st1.cache).isSome = (List.lookup name st2.cache).isSome) :
    (get_secret env1 ssm1 name req st1).2.2 = (get_secret env2 ssm2 name req st2).2.2 ∧
    errOf (get_secret env1 ssm1 name req st1).1 =
      errOf (get_secret env2 ssm2 name req st2).1 := by
  cases hl1 : List.lookup name st1.cache with
  | some w1 =>
      cases hl2 : List.lookup name st2.cache with
      | some w2 =>
          rw [get_secret_cached env1 ssm1 name req st1 w1 hl1,
              get_secret_cached env2 ssm2 name req st2 w2 hl2]
          exact ⟨rfl, rfl⟩
      | none =>
          rw [hl1, hl2] at hcache
          simp at hcache
  | none =>
      cases hl2 : List.lookup name st2.cache with
      | some w2 =>
          rw [hl1, hl2] at hcache
          simp at hcache
      | none =>
          rcases henv with ⟨he1, he2⟩ | ⟨v, w, he1, he2, hv, hw⟩ | ⟨v, he1, he2⟩
          · cases req <;> simp [get_secret, hl1, hl2, he1, he2, errOf]
          · rw [get_secret_literal env1 ssm1 name req st1 v hl1 he1 hv,
                get_secret_literal env2 ssm2 name req st2 w hl2 he2 hw]
            exact ⟨rfl, rfl⟩
          · cases hvi : _is_ssm_parameter_name v with
            | false =>
                rw [get_secret_literal env1 ssm1 name req st1 v hl1 he1 hvi,
                    get_secret_literal env2 ssm2 name req st2 v hl2 he2 hvi]
                exact ⟨rfl, rfl⟩
            | true =>
                rcases hssm v with ⟨u1, u2, ho1, ho2⟩ | heq
                · rw [get_secret_indirection_success env1 ssm1 name req st1 v u1 hl1 he1 hvi ho1,
                      get_secret_indirection_success env2 ssm2 name req st2 v u2 hl2 he2 hvi ho2]
                  exact ⟨rfl, rfl⟩
                · cases hr : (_get_from_ssm v (ssm1 v)).1 with
                  | ok u =>
                      have ho1 := _get_from_ssm_ok v (ssm1 v) u hr
                      have ho2 : ssm2 v = .success u := by
                        rw [← heq]
                        exact ho1
                      rw [get_secret_indirection_success env1 ssm1 name req st1 v u hl1 he1 hvi ho1,
                          get_secret_indirection_success env2 ssm2 name req st2 v u hl2 he2 hvi ho2]
                      exact ⟨rfl, rfl⟩
                  | error e =>
                      have hr2 : (_get_from_ssm v (ssm2 v)).1 = .error e := by
                        rw [← heq]
                        exact hr
                      cases req <;>
                        simp [get_secret, hl1, hl2, he1, he2, hvi, hr, hr2, heq, errOf]

/-- Environment of a first run: one literal secret value. -/
def c7lit1 : String → Option String := fun _ => some "sk-first"

/-- Environment of a second run: a different literal secret value. -/
def c7lit2 : String → Option String := fun _ => some "sk-second"

/-- Witness for C7 amended: two runs with different literal secret values
produce identical diagnostics. -/
theorem resolve_diagnostics_value_independent_witness :
    (get_secret c7lit1 c5ssm "OPENAI_API_KEY" true { cache := [], ssmCalls := 0 }).2.2 =
      (get_secret c7lit2 c5ssm "OPENAI_API_KEY" true { cache := [], ssmCalls := 0 }).2.2 ∧
    errOf (get_secret c7lit1 c5ssm "OPENAI_API_KEY" true { cache := [], ssmCalls := 0 }).1 =
      errOf (get_secret c7lit2 c5ssm "OPENAI_API_KEY" true { cache := [], ssmCalls := 0 }).1 :=
  resolve_diagnostics_value_independent c7lit1 c7lit2 c5ssm c5ssm "OPENAI_API_KEY" true
    { cache := [], ssmCalls := 0 } { cache := [], ssmCalls := 0 }
    (Or.inr (Or.inl ⟨"sk-first", "sk-second", rfl, rfl, rfl, rfl⟩))
    (fun _ => Or.inr rfl) rfl

/-- Environment of a run whose name indirects to one reference. -/
def c7env1 : String → Option String :=
  fun n => if n == "OPENAI_API_KEY" then some "/myapp/openai/api_key" else none

/-- Environment of a run whose name indirects to another reference. -/
def c7env2 : String → Option String :=
  fun n => if n == "OPENAI_API_KEY" then some "/other/path" else none

/-- A store that reports every reference as not found. -/
def c7ssm : String → StoreOutcome := fun _ => .clientErr "ParameterNotFound" "no such parameter"

/-- C7 counterexample: two resolve calls for the same configuration name
but different indirection references raise errors with different messages,
so the error message produced on remote-store failure contains data other
than the configuration name — the indirection reference (the environment
value) is embedded in it, refuting "no data other than the configuration
name"; the reference is not the resolved secret value, which never appears
(see the amended theorem). -/
theorem resolve_error_reveals_reference_cex :
    errOf (get_secret c7env1 c7ssm "OPENAI_API_KEY" true { cache := [], ssmCalls := 0 }).1 =
      some (.parameterNotFound "/myapp/openai/api_key") ∧
    errOf (get_secret c7env2 c7ssm "OPENAI_API_KEY" true { cache := [], ssmCalls := 0 }).1 =
      some (.parameterNotFound "/other/path") ∧
    (SecretResolutionError.parameterNotFound "/myapp/openai/api_key").message ≠
      (SecretResolutionError.parameterNotFound "/other/path").message :=
  ⟨rfl, rfl, by decide⟩
